import Mathlib

set_option maxRecDepth 2000

/-!
# Verification of the YouTube-HEVC backend download engine

Shallow embedding of the core of `backend/downloader.py` and
`backend/main.py` (repository `vay-tk/youtube-heve-backend`):

* the `extract_info` / `download_video` retry loops with their
  substring-based error classification,
* the `extract_info_with_fallback` strategy sweep,
* the `convert_to_hevc` transcoding tier ladder, and
* the `download_video_task` orchestration state machine together with the
  task table and the on-disk working/output state.

External capabilities (yt-dlp, ffmpeg, ffprobe, the filesystem) are opaque
in the source; here their per-call outcomes are inputs of the model
(functions from attempt index to an outcome), and the embedded code is the
deterministic logic the Python source wraps around those outcomes.

Python strings are modelled as Lean `String`; the `in` / `.lower()` /
`.startswith` operations used by the source are modelled by the executable
helpers below (`containsSubstr`, `lowerStr`, `startsWithX`).  `.lower()` is
ASCII-only here, which is adequate: every phrase the source compares
against is ASCII.
-/

/-- `listStarts pre l` is true iff the char list `pre` is an initial
segment of `l` (model of Python `str.startswith`, list level). -/
def listStarts : List Char → List Char → Bool
  | [], _ => true
  | _ :: _, [] => false
  | p :: ps, c :: cs => p == c && listStarts ps cs

/-- `listHas pat l` is true iff `pat` occurs contiguously in `l`
(model of Python `pat in l`, list level). -/
def listHas (pat : List Char) : List Char → Bool
  | [] => listStarts pat []
  | c :: cs => listStarts pat (c :: cs) || listHas pat cs

/-- Model of Python `pat in s` (substring containment). -/
def containsSubstr (s pat : String) : Bool := listHas pat.data s.data

/-- Model of Python `s.startswith(pre)`. -/
def startsWithX (s pre : String) : Bool := listStarts pre.data s.data

/-- Model of Python `s.lower()` (ASCII letters only; all phrases compared
by the source are ASCII). -/
def lowerStr (s : String) : String := String.mk (s.data.map Char.toLower)

deriving instance DecidableEq for Except

/-- `startsWithX` is preserved by appending on the right. -/
theorem listStarts_append (pre l l' : List Char) (h : listStarts pre l = true) :
    listStarts pre (l ++ l') = true := by
  induction pre generalizing l with
  | nil => rfl
  | cons p ps ih =>
    cases l with
    | nil => exact absurd h (by simp [listStarts])
    | cons c cs =>
      simp only [listStarts, List.cons_append, Bool.and_eq_true] at h ⊢
      exact ⟨h.1, ih cs h.2⟩

theorem startsWithX_append (a b pre : String)
    (h : startsWithX a pre = true) : startsWithX (a ++ b) pre = true := by
  have hd : (a ++ b).data = a.data ++ b.data := rfl
  unfold startsWithX at h ⊢
  rw [hd]
  exact listStarts_append _ _ _ h

/-! ## `utils.py` -/

/-- Zero-padded rendering of `f"{n:02d}"`. -/
def pad2 (n : Nat) : String := if n < 10 then "0" ++ toString n else toString n

/-- `utils.format_duration`: seconds to `HH:MM:SS` / `MM:SS`, `0` (falsy)
renders as `"Unknown"`. -/
def format_duration (seconds : Nat) : String :=
  if seconds == 0 then "Unknown"
  else
    let hours := seconds / 3600
    let minutes := seconds % 3600 / 60
    let secs := seconds % 60
    if 0 < hours then pad2 hours ++ ":" ++ pad2 minutes ++ ":" ++ pad2 secs
    else pad2 minutes ++ ":" ++ pad2 secs

/-! ## Video metadata and error taxonomy -/

/-- Metadata returned by the opaque extraction capability
(`ydl.extract_info`): the fields the orchestrator reads. -/
structure VInfo where
  title : String
  thumbnail : String
  duration : Nat
deriving DecidableEq, Repr

/-- One underlying call of the yt-dlp extraction capability, as seen by
`extract_info._extract`: a metadata object (possibly Python-`None`), a
`yt_dlp.utils.DownloadError` with a message, or an unexpected exception. -/
inductive FetchOutcome where
  | ok (info : Option VInfo)
  | dlError (msg : String)
  | exn (msg : String)
deriving DecidableEq

/-- The error taxonomy of the spec (§7), as realised by the classification
chain in `downloader.extract_info` (lines 238-251). -/
inductive ErrCategory where
  | blocked
  | forbidden
  | notFound
  | rateLimited
  | other
deriving DecidableEq, Repr

/-- The blocking phrases checked at `downloader.py:238-241`. -/
def blockedPhrases : List String :=
  ["sign in to confirm", "not a bot", "private video",
   "video unavailable", "removed by the user"]

/-- Classification of a `DownloadError` message by
`downloader.extract_info._extract` (the if/elif chain, in source order). -/
def classifyExtractError (msg : String) : ErrCategory :=
  let l := lowerStr msg
  if blockedPhrases.any (fun p => containsSubstr l p) then .blocked
  else if containsSubstr l "http error 403" then .forbidden
  else if containsSubstr l "http error 404" then .notFound
  else if containsSubstr l "http error 429" then .rateLimited
  else .other

/-- The exception surfaced by one `_extract` call in
`downloader.extract_info` (lines 225-254): success passes the metadata
through (possibly `None`); a `DownloadError` is rewritten per the
classification chain; an unexpected exception is wrapped. -/
def extractAttemptMsg : FetchOutcome → Except String (Option VInfo)
  | .ok info => .ok info
  | .dlError msg =>
    let l := lowerStr msg
    if blockedPhrases.any (fun p => containsSubstr l p) then
      .error ("Video access blocked: " ++ msg)
    else if containsSubstr l "http error 403" then
      .error "Access forbidden - video may be region-locked or require authentication"
    else if containsSubstr l "http error 404" then
      .error "Video not found - it may have been deleted or made private"
    else if containsSubstr l "http error 429" then
      .error "Rate limited"
    else .error ("Failed to extract video info: " ++ msg)
  | .exn msg => .error ("Could not extract video information: " ++ msg)

/-- Retry condition shared by both retry loops
(`downloader.py:273` and `downloader.py:391`):
`'rate limited' in error_msg.lower() or 'bot' in error_msg.lower()`. -/
def retryablePhrase (em : String) : Bool :=
  containsSubstr (lowerStr em) "rate limited" || containsSubstr (lowerStr em) "bot"

/-- Result of a retry loop: the surfaced value or error, and how many
calls were made to the underlying capability. -/
structure RetryRes where
  result : Except String (Option VInfo)
  calls : Nat
deriving Repr

/-- The `while retry_count < max_retries` loop of
`downloader.extract_info` (lines 214-282).  `att i` is the outcome of the
`i`-th underlying call; the second argument is the number of attempts
still allowed (`max_retries - retry_count`).  A failed attempt is
followed by another exactly when attempts remain and the surfaced message
satisfies `retryablePhrase`; otherwise the exception propagates
(`raise e`, line 280). -/
def runExtract (att : Nat → FetchOutcome) : Nat → Nat → RetryRes
  | _, 0 => ⟨.error "Max retries exceeded", 0⟩
  | i, fuel + 1 =>
    match extractAttemptMsg (att i) with
    | .ok info => ⟨.ok info, 1⟩
    | .error em =>
      if 0 < fuel && retryablePhrase em then
        let r := runExtract att (i + 1) fuel
        ⟨r.result, r.calls + 1⟩
      else ⟨.error em, 1⟩

/-- `downloader.extract_info` with `max_retries = 3`. -/
def extract_info (att : Nat → FetchOutcome) : RetryRes := runExtract att 0 3

/-! ## `extract_info_with_fallback` (downloader.py:561-622) -/

/-- One strategy attempt of the fallback sweep: either the metadata
object returned by `ydl.extract_info` (Python-falsy `None` as `none`), or
an exception carrying a message. -/
inductive StratOutcome where
  | ok (info : Option VInfo)
  | err (msg : String)
deriving DecidableEq

/-- The fixed ordered strategy names of the sweep
(`downloader.py:563-578`). -/
def strategies : List String :=
  ["browser_cookies", "file_cookies", "geo_bypass", "no_age_gate", "minimal"]

/-- Result of the sweep: surfaced value or error, and number of strategy
attempts performed. -/
structure SweepRes where
  result : Except String VInfo
  calls : Nat
deriving Repr

/-- The `for strategy in strategies` loop (`downloader.py:582-622`): one
attempt per strategy; an exception updates `last_error` and moves on; a
truthy result is returned at once; a falsy (`None`) result moves on
without touching `last_error`.  After the loop, the last error observed
is raised, or a generic failure when no strategy raised. -/
def runSweep (oc : Nat → StratOutcome) : Nat → List String → Option String → SweepRes
  | _, [], lastErr =>
    ⟨.error (lastErr.getD "All extraction strategies failed"), 0⟩
  | i, _ :: rest, lastErr =>
    match oc i with
    | .ok (some info) => ⟨.ok info, 1⟩
    | .ok none =>
      let r := runSweep oc (i + 1) rest lastErr
      ⟨r.result, r.calls + 1⟩
    | .err m =>
      let r := runSweep oc (i + 1) rest (some m)
      ⟨r.result, r.calls + 1⟩

/-- `downloader.extract_info_with_fallback`. -/
def extract_info_with_fallback (oc : Nat → StratOutcome) : SweepRes :=
  runSweep oc 0 strategies none

/-! ## `download_video` (downloader.py:284-400) -/

/-- A candidate file `temp/{task_id}_temp.{ext}` on disk, identified by
its extension, with its byte size. -/
structure FileEntry where
  ext : String
  size : Nat
deriving DecidableEq, Repr

/-- One underlying call of the yt-dlp download capability, as seen by one
iteration of `download_video`: a `DownloadError`, an unexpected
exception, or a completed `ydl.download` run.  `files` is the set of
candidate files `temp/{task_id}_temp.*` on disk when the attempt ends;
for a completed run, `largestValid` is the ffprobe verdict of
`validate_video_file` on the largest candidate. -/
inductive DlAttempt where
  | dlError (msg : String) (files : List FileEntry)
  | exn (msg : String) (files : List FileEntry)
  | ok (files : List FileEntry) (largestValid : Bool)
deriving DecidableEq

/-- The candidate files on disk after the underlying attempt ran. -/
def attemptFiles : DlAttempt → List FileEntry
  | .dlError _ files => files
  | .exn _ files => files
  | .ok files _ => files

/-- The blocking phrases checked at `downloader.py:328-330`. -/
def dlBlockedPhrases : List String := ["sign in to confirm", "not a bot"]

/-- Python `max(files, key=size)`: the first candidate of maximal size. -/
def pickLargest (f : FileEntry) (rest : List FileEntry) : FileEntry :=
  rest.foldl (fun acc x => if acc.size < x.size then x else acc) f

/-- The outcome of one iteration body of `download_video`
(lines 314-369): the `_download` error rewriting chain (lines 323-347),
then candidate discovery, largest-candidate selection, the empty-size
check, and ffprobe validation. -/
def downloadAttemptMsg : DlAttempt → Except String FileEntry
  | .dlError msg _ =>
    let l := lowerStr msg
    if dlBlockedPhrases.any (fun p => containsSubstr l p) then
      .error "YouTube is blocking automated access. Please try uploading cookies.txt file or try again later."
    else if containsSubstr l "http error 403" then
      .error "Access forbidden. Video may be region-locked, private, or require authentication. Try uploading cookies.txt."
    else if containsSubstr l "http error 404" then
      .error "Video not found. It may have been deleted, made private, or the URL is incorrect."
    else if containsSubstr l "http error 429" then
      .error "Rate limited"
    else if containsSubstr l "private video" then
      .error "This is a private video. You need to upload cookies.txt from a logged-in session."
    else if containsSubstr l "video unavailable" then
      .error "Video is unavailable. It may be region-locked or removed."
    else .error ("Download failed: " ++ msg)
  | .exn msg _ => .error ("Download failed: " ++ msg)
  | .ok files valid =>
    match files with
    | [] => .error "Download completed but no file was created"
    | f :: rest =>
      let largest := pickLargest f rest
      if largest.size == 0 then .error "Downloaded file is empty"
      else if valid then .ok largest
      else .error "Downloaded file is not a valid video file"

/-- Result of the download retry loop: surfaced file or error, number of
underlying calls, and the candidate files left in `temp/` for this task
id when the loop ends. -/
structure DlRes where
  result : Except String FileEntry
  calls : Nat
  files : List FileEntry
deriving Repr

/-- The `while retry_count < max_retries` loop of
`downloader.download_video` (lines 293-400).  On success all candidates
of the successful attempt remain on disk and the largest is returned; on
any failure every candidate file matching `{task_id}_temp.*` is deleted
(lines 383-388) before the retry decision, which uses the same
`retryablePhrase` condition as extraction (line 391). -/
def runDownload (att : Nat → DlAttempt) : Nat → Nat → DlRes
  | _, 0 => ⟨.error "Max retries exceeded", 0, []⟩
  | i, fuel + 1 =>
    match downloadAttemptMsg (att i) with
    | .ok file => ⟨.ok file, 1, attemptFiles (att i)⟩
    | .error em =>
      if 0 < fuel && retryablePhrase em then
        let r := runDownload att (i + 1) fuel
        ⟨r.result, r.calls + 1, r.files⟩
      else ⟨.error em, 1, []⟩

/-- `downloader.download_video` with `max_retries = 3`. -/
def download_video (att : Nat → DlAttempt) : DlRes := runDownload att 0 3

/-! ## `convert_to_hevc` (downloader.py:446-559) -/

/-- The ffprobe pre-flight on the input file (`downloader.py:451-458`):
exit success, exit failure, or a 30s subprocess timeout. -/
inductive ProbeRes where
  | ok
  | fail
  | timedOut
deriving DecidableEq, Repr

/-- One encoder/remux subprocess run: either it exceeded its
`subprocess.run` timeout, or it ran to completion with an exit status,
leaving the output file in the carried existence/size state. -/
inductive TierRes where
  | timedOut (outExists : Bool) (outSize : Nat)
  | ran (rcZero : Bool) (outExists : Bool) (outSize : Nat)
deriving DecidableEq, Repr

/-- The three conversion tiers, in source order. -/
inductive Tier where
  | hevc
  | h264
  | remux
deriving DecidableEq, Repr

/-- Success criterion of one tier
(`result.returncode == 0 and output_file.exists() and output_file.stat().st_size > 0`,
lines 491, 514, 531). -/
def tierSuccess : TierRes → Bool
  | .ran rcZero outExists outSize => rcZero && outExists && decide (0 < outSize)
  | .timedOut _ _ => false

/-- An encoder invocation: argv and its `subprocess.run` timeout. -/
structure CmdSpec where
  cmd : List String
  timeoutSecs : Nat
deriving Repr

/-- The HEVC command (`downloader.py:473-489`). -/
def hevcCmdSpec (input output : String) : CmdSpec :=
  ⟨["ffmpeg", "-i", input, "-c:v", "libx265", "-c:a", "aac", "-b:a", "96k",
    "-vf", "scale=1280:720:force_original_aspect_ratio=decrease,pad=1280:720:(ow-iw)/2:(oh-ih)/2",
    "-preset", "medium", "-crf", "23", "-movflags", "faststart",
    "-avoid_negative_ts", "make_zero", "-fflags", "+genpts", "-y", output], 1800⟩

/-- The H.264 fallback command (`downloader.py:497-512`). -/
def h264CmdSpec (input output : String) : CmdSpec :=
  ⟨["ffmpeg", "-i", input, "-c:v", "libx264", "-c:a", "aac", "-b:a", "96k",
    "-vf", "scale=1280:720:force_original_aspect_ratio=decrease,pad=1280:720:(ow-iw)/2:(oh-ih)/2",
    "-preset", "medium", "-crf", "23", "-movflags", "faststart",
    "-avoid_negative_ts", "make_zero", "-fflags", "+genpts", "-y", output], 1800⟩

/-- The stream-copy remux command (`downloader.py:520-529`). -/
def remuxCmdSpec (input output : String) : CmdSpec :=
  ⟨["ffmpeg", "-i", input, "-c", "copy", "-movflags", "faststart",
    "-avoid_negative_ts", "make_zero", "-y", output], 600⟩

/-- Behaviour of the external encoder for one conversion call: the probe
verdict, the result of each tier had it been run, the stderr of the remux
run (used in the all-failed message, line 536), and the final
`validate_video_file` verdict on the output (line 554). -/
structure ConvertEnv where
  probe : ProbeRes
  hevc : TierRes
  h264 : TierRes
  remux : TierRes
  remuxStderr : String
  outputValid : Bool

/-- The timeout message raised at `downloader.py:540-541`. -/
def timeoutMsg : String :=
  "Video conversion timed out (file too large or processing issue)"

/-- The ordered list of tiers whose commands actually get executed by one
`_convert` call: nothing if the probe fails or times out; otherwise each
next tier runs only when every earlier tier ran to completion and failed
its success check (a tier timeout aborts the ladder). -/
def convertAttempts (env : ConvertEnv) : List Tier :=
  match env.probe with
  | .fail => []
  | .timedOut => []
  | .ok =>
    if tierSuccess env.hevc then [Tier.hevc]
    else
      match env.hevc with
      | .timedOut _ _ => [Tier.hevc]
      | .ran _ _ _ =>
        if tierSuccess env.h264 then [Tier.hevc, Tier.h264]
        else
          match env.h264 with
          | .timedOut _ _ => [Tier.hevc, Tier.h264]
          | .ran _ _ _ => [Tier.hevc, Tier.h264, Tier.remux]

/-- The result of `_convert` (`downloader.py:448-544`): which tier
returned `True`, or the exception message.  A `subprocess.TimeoutExpired`
at any point surfaces as `timeoutMsg`; a probe failure and the
all-tiers-failed case are wrapped by the inner handler at line 542-544
(the latter twice: once at line 538 and once more at line 544). -/
def convertCore (env : ConvertEnv) : Except String Tier :=
  match env.probe with
  | .timedOut => .error timeoutMsg
  | .fail => .error ("Video conversion failed: " ++ "Input file is corrupted or invalid")
  | .ok =>
    if tierSuccess env.hevc then .ok Tier.hevc
    else
      match env.hevc with
      | .timedOut _ _ => .error timeoutMsg
      | .ran _ _ _ =>
        if tierSuccess env.h264 then .ok Tier.h264
        else
          match env.h264 with
          | .timedOut _ _ => .error timeoutMsg
          | .ran _ _ _ =>
            if tierSuccess env.remux then .ok Tier.remux
            else
              match env.remux with
              | .timedOut _ _ => .error timeoutMsg
              | .ran _ _ _ =>
                let em := if env.remuxStderr == "" then "Unknown conversion error"
                          else env.remuxStderr
                .error ("Video conversion failed: " ++ ("Video conversion failed: " ++ em))

/-- `downloader.convert_to_hevc` (lines 446-559): `_convert`, then the
final `validate_video_file` check on the output file. -/
def convert_to_hevc (env : ConvertEnv) : Except String Tier :=
  match convertCore env with
  | .error m => .error m
  | .ok t => if env.outputValid then .ok t else .error "Converted file is not valid"

/-- Existence/size of the output file after the conversion call returns
or raises: the state carried by the last tier that ran (`init` when no
tier ran). -/
def convertOutState (env : ConvertEnv) (init : Bool × Nat) : Bool × Nat :=
  match env.probe with
  | .fail => init
  | .timedOut => init
  | .ok =>
    match env.hevc with
    | .timedOut e s => (e, s)
    | .ran _ e s =>
      if tierSuccess env.hevc then (e, s)
      else
        match env.h264 with
        | .timedOut e2 s2 => (e2, s2)
        | .ran _ e2 s2 =>
          if tierSuccess env.h264 then (e2, s2)
          else
            match env.remux with
            | .timedOut e3 s3 => (e3, s3)
            | .ran _ e3 s3 => (e3, s3)

/-! ## Task table and orchestrator (`main.py`) -/

/-- Video metadata as stored in the task record
(`main.py:408-412`): the duration is stored formatted. -/
structure StoredInfo where
  title : String
  thumbnail : String
  duration : String
deriving DecidableEq, Repr

/-- The mutable part of one task-table record: the five keys the
background job writes (`status`, `progress`, `message`, `videoInfo`,
`filename`).  The `url` and `rename` keys are written once at creation
and never touched by the job; they live in `TaskEntry`. -/
structure TaskView where
  status : String
  progress : String
  message : String
  videoInfo : Option StoredInfo
  filename : Option String
deriving DecidableEq, Repr

/-- One full record of the `tasks` dict (`main.py:175-183`). -/
structure TaskEntry where
  view : TaskView
  url : String
  rename : Option String
deriving DecidableEq, Repr

/-- The on-disk state relevant to one task id: the candidate files
`temp/{taskId}_temp.*` (by extension) and the single output slot
`downloads/{taskId}.mkv` (existence and byte size). -/
structure Fs where
  tempFiles : List FileEntry
  outputExists : Bool
  outputSize : Nat
deriving DecidableEq, Repr

/-- The output artifact path for a task (`main.py:447`). -/
def outputPath (taskId : String) : String := "downloads/" ++ taskId ++ ".mkv"

/-- The glob-delete of `temp/{task_id}_temp.*`
(`main.py:485-488`, also `main.py:242-243`). -/
def clearTemp (fs : Fs) : Fs := { fs with tempFiles := [] }

/-- Deleting one candidate path removes every entry with that extension
(entries share the path `temp/{taskId}_temp.{ext}`). -/
def unlinkTemp (fs : Fs) (f : FileEntry) : Fs :=
  { fs with tempFiles := fs.tempFiles.filter (fun g => g.ext ≠ f.ext) }

/-- The record created by `start_download` (`main.py:175-183`). -/
def initView : TaskView :=
  { status := "processing", progress := "starting",
    message := "Initializing download...", videoInfo := none, filename := none }

/-- `main.start_download` (lines 152-196): stores the record, including
the rename hint, keyed by the fresh task id. -/
def start_download (url : String) (rename : Option String) : TaskEntry :=
  ⟨initView, url, rename⟩

/-- The YouTube URL patterns accepted by `start_download`
(`main.py:161-167`). -/
def youtubePatterns : List String :=
  ["youtube.com/watch", "youtu.be/", "youtube.com/embed/",
   "youtube.com/v/", "m.youtube.com/watch"]

/-- URL validation of `start_download` (`main.py:169`). -/
def isValidYoutubeUrl (url : String) : Bool :=
  youtubePatterns.any (fun p => containsSubstr url p)

/-- `main.cleanup_task` (lines 228-247): drops the task record and every
artifact (output file and temp candidates) for the id. -/
def cleanup_task (tbl : List (String × TaskEntry)) (fs : Fs) (taskId : String) :
    List (String × TaskEntry) × Fs :=
  (tbl.filter (fun p => p.1 ≠ taskId), ⟨[], false, 0⟩)

/-- Terminal task statuses. -/
def isTerminalStatus (s : String) : Bool := s == "ready" || s == "error"

/-- The category-specific extraction failure messages of
`main.download_video_task` (lines 389-400). -/
def msgExtractBlocked : String :=
  "❌ YouTube is blocking access to this video.\n\n💡 Solutions:\n• Upload a valid cookies.txt file\n• Try again in a few minutes\n• The video may be region-locked or age-restricted"

def msgExtractForbidden : String :=
  "❌ Access forbidden.\n\n💡 This video may be:\n• Region-locked\n• Private or unlisted\n• Require authentication\n\nTry uploading cookies.txt from a logged-in session."

def msgExtractNotFound : String :=
  "❌ Video not found.\n\n💡 Please check:\n• The URL is correct\n• The video hasn\x27t been deleted\n• The video isn\x27t private"

def msgExtractMaxRetries : String :=
  "❌ Multiple attempts failed.\n\n💡 YouTube is actively blocking requests. Please:\n• Wait 10-15 minutes before trying again\n• Upload fresh cookies.txt\n• Try a different video"

/-- The user-facing message written on a terminal extraction failure
(`main.py:389-400`). -/
def extractFailureUserMsg (em : String) : String :=
  let l := lowerStr em
  if containsSubstr l "video access blocked" || containsSubstr l "bot" then msgExtractBlocked
  else if containsSubstr l "access forbidden" then msgExtractForbidden
  else if containsSubstr l "video not found" then msgExtractNotFound
  else if containsSubstr l "max retries exceeded" then msgExtractMaxRetries
  else "❌ Extraction failed: " ++ em

/-- The category-specific download failure messages of
`main.download_video_task` (lines 421-434). -/
def msgDlBlocked : String :=
  "❌ YouTube is blocking the download.\n\n💡 Solutions:\n• Upload a valid cookies.txt file\n• Wait 10-15 minutes before retrying\n• Try a different video"

def msgDlForbidden : String :=
  "❌ Download forbidden.\n\n💡 This video may be:\n• Region-locked\n• Private or require authentication\n• Age-restricted\n\nTry uploading cookies.txt from a logged-in session."

def msgDlNotFound : String :=
  "❌ Video not found during download.\n\n💡 The video may have been:\n• Deleted or made private\n• Moved to a different URL"

def msgDlPrivate : String :=
  "❌ This is a private video.\n\n💡 You need to upload cookies.txt from a browser session where you\x27re logged in and have access to this video."

def msgDlMaxRetries : String :=
  "❌ Download failed after multiple attempts.\n\n💡 YouTube is actively blocking requests. Please:\n• Wait 15-30 minutes before trying again\n• Upload fresh cookies.txt\n• Check if the video is still available"

/-- The user-facing message written on a terminal download failure
(`main.py:421-434`). -/
def downloadFailureUserMsg (em : String) : String :=
  let l := lowerStr em
  if containsSubstr l "youtube is blocking" || containsSubstr l "bot" then msgDlBlocked
  else if containsSubstr l "access forbidden" then msgDlForbidden
  else if containsSubstr l "video not found" then msgDlNotFound
  else if containsSubstr l "private video" then msgDlPrivate
  else if containsSubstr l "max retries exceeded" then msgDlMaxRetries
  else "❌ Download failed: " ++ em

/-- The fixed category-tagged user-actionable messages a terminal error
can carry (all branches of `main.py:389-400` and `main.py:421-434` other
than the generic fallbacks). -/
def categoryMessages : List String :=
  [msgExtractBlocked, msgExtractForbidden, msgExtractNotFound, msgExtractMaxRetries,
   msgDlBlocked, msgDlForbidden, msgDlNotFound, msgDlPrivate, msgDlMaxRetries]

/-- The terminal exception handler of `main.download_video_task`
(lines 475-479): set status `error` unless already set, and overwrite the
message with the raw exception text unless a `❌`-tagged message is
already in place. -/
def outerHandler (v : TaskView) (em : String) : TaskView :=
  if v.status ≠ "error" then
    { v with
      status := "error",
      message := if startsWithX v.message "❌" then v.message
                 else "❌ Error: " ++ em }
  else v

/-- External behaviour driving one orchestration job: the per-call
outcomes of the extraction retries, of the fallback sweep strategies, of
the download retries, and of the conversion call. -/
structure Scenario where
  extractAtt : Nat → FetchOutcome
  sweepAtt : Nat → StratOutcome
  dlAtt : Nat → DlAttempt
  conv : ConvertEnv

/-- The `videoInfo` stored at `main.py:408-412`. -/
def storedOf (vi : VInfo) : StoredInfo :=
  ⟨vi.title, vi.thumbnail, format_duration vi.duration⟩

/-- Steps of `main.download_video_task` from the point where video
metadata is in hand (`main.py:405` onwards).  Returns the observable
`(record, filesystem)` snapshots: one per maximal segment of synchronous
code (the job runs on a single-threaded event loop, so states between two
`await` points are never observable by the polling API). -/
def afterInfo (sc : Scenario) (taskId : String) (v : TaskView) (fs : Fs) :
    Option VInfo → List (TaskView × Fs)
  | none =>
    -- `raise Exception("Could not extract video information")`, main.py:406
    [ (outerHandler v "Could not extract video information", clearTemp fs) ]
  | some vi =>
    let v3 : TaskView :=
      { v with
        videoInfo := some (storedOf vi),
        progress := "downloading",
        message := "Downloading: " ++ vi.title }
    let d := download_video sc.dlAtt
    let fs1 : Fs := { fs with tempFiles := d.files }
    match d.result with
    | .error em =>
      let verr : TaskView :=
        { v3 with message := downloadFailureUserMsg em, status := "error" }
      [ (v3, fs), (outerHandler verr em, clearTemp fs1) ]
    | .ok f =>
      if fs1.tempFiles.contains f then
        let v4 : TaskView :=
          { v3 with
            progress := "converting",
            message := "Converting video to optimized format..." }
        let os := convertOutState sc.conv (fs1.outputExists, fs1.outputSize)
        let fs2 : Fs := { fs1 with outputExists := os.1, outputSize := os.2 }
        let ready : TaskView → TaskView := fun w =>
          { w with
            status := "ready",
            progress := "ready",
            message := "✅ Video ready for download!",
            filename := some (taskId ++ ".mkv") }
        match convert_to_hevc sc.conv with
        | .error em =>
          if containsSubstr (lowerStr em) "hevc encoder" then
            -- message set to the ⚠️ text, then (same synchronous block)
            -- the output-file check and, on success, the ready block
            let v5 : TaskView :=
              { v4 with message := "⚠️ HEVC not available, using H.264 instead..." }
            if os.1 && decide (0 < os.2) then
              [ (v3, fs), (v4, fs1), (ready v5, unlinkTemp fs2 f) ]
            else
              [ (v3, fs), (v4, fs1),
                (outerHandler v5 "Conversion failed - no output file created", clearTemp fs2) ]
          else
            let verr : TaskView :=
              { v4 with message := "❌ Conversion failed: " ++ em, status := "error" }
            [ (v3, fs), (v4, fs1), (outerHandler verr em, clearTemp fs2) ]
        | .ok _ =>
          if os.1 && decide (0 < os.2) then
            [ (v3, fs), (v4, fs1), (ready v4, unlinkTemp fs2 f) ]
          else
            [ (v3, fs), (v4, fs1),
              (outerHandler v4 "Conversion failed - no output file created", clearTemp fs2) ]
      else
        -- `raise Exception("Download failed - no file created")`, main.py:440
        [ (v3, fs), (outerHandler v3 "Download failed - no file created", clearTemp fs1) ]

/-- `main.download_video_task` (lines 367-488) as a trace of observable
`(record, filesystem)` states.  The `url` is only consumed by the
external capabilities already abstracted in `sc`; the `rename` parameter
is accepted (as in the source) and never read. -/
def download_video_task (sc : Scenario) (taskId url : String)
    (rename : Option String) (v0 : TaskView) (fs0 : Fs) : List (TaskView × Fs) :=
  let v1 : TaskView :=
    { v0 with
      progress := "extracting",
      message := "Extracting video information (trying browser cookies first)..." }
  match (extract_info sc.extractAtt).result with
  | .ok oinfo => (v1, fs0) :: afterInfo sc taskId v1 fs0 oinfo
  | .error em =>
    if containsSubstr (lowerStr em) "blocked" || containsSubstr (lowerStr em) "bot" then
      let v2 : TaskView :=
        { v1 with message := "Standard extraction failed, trying alternative methods..." }
      match (extract_info_with_fallback sc.sweepAtt).result with
      | .ok info => (v1, fs0) :: (v2, fs0) :: afterInfo sc taskId v2 fs0 (some info)
      | .error em2 =>
        let verr : TaskView :=
          { v2 with message := extractFailureUserMsg em2, status := "error" }
        [ (v1, fs0), (v2, fs0), (outerHandler verr em2, clearTemp fs0) ]
    else
      let verr : TaskView :=
        { v1 with message := extractFailureUserMsg em, status := "error" }
      [ (v1, fs0), (outerHandler verr em, clearTemp fs0) ]

/-- The trace of full task-table records: the job mutates only the view;
`url` and `rename` are the creation-time values throughout. -/
def entryTrace (sc : Scenario) (taskId url : String) (rename : Option String)
    (fs0 : Fs) : List (TaskEntry × Fs) :=
  (download_video_task sc taskId url rename initView fs0).map
    (fun p => (⟨p.1, url, rename⟩, p.2))

/-! ## Retry-loop lemmas -/

theorem runExtract_calls_le (att : Nat → FetchOutcome) (i fuel : Nat) :
    (runExtract att i fuel).calls ≤ fuel := by
  induction fuel generalizing i with
  | zero => simp [runExtract]
  | succ f ih =>
    unfold runExtract
    cases h : extractAttemptMsg (att i) with
    | ok info => simp
    | error em =>
      simp only
      split
      · exact Nat.succ_le_succ (ih (i + 1))
      · exact Nat.succ_le_succ (Nat.zero_le f)

theorem runDownload_calls_le (att : Nat → DlAttempt) (i fuel : Nat) :
    (runDownload att i fuel).calls ≤ fuel := by
  induction fuel generalizing i with
  | zero => simp [runDownload]
  | succ f ih =>
    unfold runDownload
    cases h : downloadAttemptMsg (att i) with
    | ok file => simp
    | error em =>
      simp only
      split
      · exact Nat.succ_le_succ (ih (i + 1))
      · exact Nat.succ_le_succ (Nat.zero_le f)

/-- The download loop either ends with the temp candidates wiped, or it
succeeded. -/
theorem runDownload_files_spec (att : Nat → DlAttempt) (i fuel : Nat) :
    (runDownload att i fuel).files = [] ∨
      ∃ file, (runDownload att i fuel).result = .ok file := by
  induction fuel generalizing i with
  | zero => left; rfl
  | succ f ih =>
    unfold runDownload
    cases hm : downloadAttemptMsg (att i) with
    | ok file => right; exact ⟨file, rfl⟩
    | error em =>
      simp only
      split
      · exact ih (i + 1)
      · left; rfl

/-- On every failure exit of the download loop, the candidate files have
been deleted (`downloader.py:383-388`). -/
theorem runDownload_error_files (att : Nat → DlAttempt) (i fuel : Nat) (em : String)
    (h : (runDownload att i fuel).result = .error em) :
    (runDownload att i fuel).files = [] := by
  rcases runDownload_files_spec att i fuel with hf | ⟨file, hok⟩
  · exact hf
  · rw [h] at hok
    exact absurd hok (by simp)

/-! ## Claim C1 -/

/-- C1 fails as stated: a failure whose classification is Blocked is not
always followed by a further attempt.  With every underlying extraction
call failing as `"private video"` — classified Blocked by the source's
own chain — `extract_info` makes exactly one call and propagates
immediately, because the surfaced message `"Video access blocked:
private video"` contains neither `'rate limited'` nor `'bot'`.
Likewise `download_video` under a bot-check failure makes exactly one
call: its rewritten message `"YouTube is blocking automated access. ..."`
does not contain `'bot'`. -/
theorem C1_blocked_not_retried_counterexample :
    classifyExtractError "private video" = ErrCategory.blocked ∧
    (extract_info (fun _ => FetchOutcome.dlError "private video")).calls = 1 ∧
    retryablePhrase "Video access blocked: private video" = false ∧
    classifyExtractError "Sign in to confirm you\x27re not a bot" = ErrCategory.blocked ∧
    (download_video (fun _ =>
      DlAttempt.dlError "Sign in to confirm you\x27re not a bot" [])).calls = 1 := by
  refine ⟨by decide, by decide, by decide, by decide, by decide⟩

/-- C1 (amended): `extract_info` and `download_video` make at most 3
calls to the underlying yt-dlp capability; after a failed attempt a
further attempt occurs exactly when attempts remain and the surfaced
error message contains `'rate limited'` or `'bot'` (case-insensitive).
RateLimited-classified failures always satisfy this; Forbidden- and
NotFound-classified failures never do (they propagate immediately);
Blocked- and Other-classified failures are retried only when their
message happens to mention a bot. -/
theorem C1_retry_policy_amended :
    (∀ att : Nat → FetchOutcome, (extract_info att).calls ≤ 3) ∧
    (∀ att : Nat → DlAttempt, (download_video att).calls ≤ 3) ∧
    (∀ (att : Nat → FetchOutcome) (i fuel : Nat) (em : String),
      extractAttemptMsg (att i) = .error em →
      (runExtract att i (fuel + 1)).calls =
        (if 0 < fuel && retryablePhrase em then
          (runExtract att (i + 1) fuel).calls + 1 else 1)) ∧
    (∀ (att : Nat → DlAttempt) (i fuel : Nat) (em : String),
      downloadAttemptMsg (att i) = .error em →
      (runDownload att i (fuel + 1)).calls =
        (if 0 < fuel && retryablePhrase em then
          (runDownload att (i + 1) fuel).calls + 1 else 1)) ∧
    (∀ m : String, classifyExtractError m = .forbidden →
      extractAttemptMsg (.dlError m) =
        .error "Access forbidden - video may be region-locked or require authentication" ∧
      retryablePhrase
        "Access forbidden - video may be region-locked or require authentication" = false) ∧
    (∀ m : String, classifyExtractError m = .notFound →
      extractAttemptMsg (.dlError m) =
        .error "Video not found - it may have been deleted or made private" ∧
      retryablePhrase "Video not found - it may have been deleted or made private" = false) ∧
    (∀ m : String, classifyExtractError m = .rateLimited →
      extractAttemptMsg (.dlError m) = .error "Rate limited" ∧
      retryablePhrase "Rate limited" = true) := by
  refine ⟨fun att => runExtract_calls_le att 0 3,
          fun att => runDownload_calls_le att 0 3, ?_, ?_, ?_, ?_, ?_⟩
  · intro att i fuel em h
    conv_lhs => unfold runExtract
    rw [h]
    simp only []
    by_cases hc : (0 < fuel && retryablePhrase em) = true
    · rw [if_pos hc, if_pos hc]
    · rw [if_neg hc, if_neg hc]
  · intro att i fuel em h
    conv_lhs => unfold runDownload
    rw [h]
    simp only []
    by_cases hc : (0 < fuel && retryablePhrase em) = true
    · rw [if_pos hc, if_pos hc]
    · rw [if_neg hc, if_neg hc]
  · intro m h
    simp only [classifyExtractError] at h
    simp only [extractAttemptMsg]
    split_ifs at h ⊢ with h1 h2 h3 h4
    all_goals first
      | exact absurd h (by decide)
      | exact ⟨rfl, by decide⟩
  · intro m h
    simp only [classifyExtractError] at h
    simp only [extractAttemptMsg]
    split_ifs at h ⊢ with h1 h2 h3 h4
    all_goals first
      | exact absurd h (by decide)
      | exact ⟨rfl, by decide⟩
  · intro m h
    simp only [classifyExtractError] at h
    simp only [extractAttemptMsg]
    split_ifs at h ⊢ with h1 h2 h3 h4
    all_goals first
      | exact absurd h (by decide)
      | exact ⟨rfl, by decide⟩

/-- Witness for `C1_retry_policy_amended` at concrete inputs. -/
theorem C1_retry_policy_amended_witness :
    (extract_info (fun _ => FetchOutcome.dlError "HTTP Error 404: Not Found")).calls ≤ 3 ∧
    (extractAttemptMsg (.dlError "HTTP Error 404: Not Found") =
        .error "Video not found - it may have been deleted or made private" ∧
      retryablePhrase "Video not found - it may have been deleted or made private" = false) ∧
    (extractAttemptMsg (.dlError "HTTP Error 429: Too Many Requests") =
        .error "Rate limited" ∧
      retryablePhrase "Rate limited" = true) :=
  ⟨C1_retry_policy_amended.1 _,
   C1_retry_policy_amended.2.2.2.2.2.1 "HTTP Error 404: Not Found" (by decide),
   C1_retry_policy_amended.2.2.2.2.2.2 "HTTP Error 429: Too Many Requests" (by decide)⟩

/-! ## Claim C2 -/

/-- C2: the fallback sweep tries the five fixed strategies in order, one
attempt each; if strategy `k` (0-based index) yields a non-empty result
and every earlier strategy raises, exactly `k + 1` attempts are performed
and strategy `k`'s result is returned; if every strategy raises, the last
error observed is raised. -/
theorem C2_fallback_sweep_first_success :
    strategies = ["browser_cookies", "file_cookies", "geo_bypass",
                  "no_age_gate", "minimal"] ∧
    (∀ oc : Nat → StratOutcome, (extract_info_with_fallback oc).calls ≤ 5) ∧
    (∀ (oc : Nat → StratOutcome) (k : Nat) (info : VInfo), k < 5 →
      (∀ j, j < k → ∃ m, oc j = .err m) →
      oc k = .ok (some info) →
      (extract_info_with_fallback oc).calls = k + 1 ∧
      (extract_info_with_fallback oc).result = .ok info) ∧
    (∀ (oc : Nat → StratOutcome) (m : Nat → String),
      (∀ j, j < 5 → oc j = .err (m j)) →
      (extract_info_with_fallback oc).result = .error (m 4) ∧
      (extract_info_with_fallback oc).calls = 5) := by
  refine ⟨rfl, ?_, ?_, ?_⟩
  · intro oc
    show (runSweep oc 0 strategies none).calls ≤ 5
    have step : ∀ (L : List String) (i : Nat) (le : Option String),
        (runSweep oc i L le).calls ≤ L.length := by
      intro L
      induction L with
      | nil => intro i le; simp [runSweep]
      | cons s rest ih =>
        intro i le
        unfold runSweep
        cases oc i with
        | ok info =>
          cases info with
          | none => simpa using Nat.succ_le_succ (ih (i + 1) le)
          | some v => simp
        | err m => simpa using Nat.succ_le_succ (ih (i + 1) (some m))
    simpa [strategies] using step strategies 0 none
  · intro oc k info hk hfail hok
    interval_cases k
    · constructor <;> simp [extract_info_with_fallback, strategies, runSweep, hok]
    · obtain ⟨m0, h0⟩ := hfail 0 (by omega)
      constructor <;>
        simp [extract_info_with_fallback, strategies, runSweep, h0, hok]
    · obtain ⟨m0, h0⟩ := hfail 0 (by omega)
      obtain ⟨m1, h1⟩ := hfail 1 (by omega)
      constructor <;>
        simp [extract_info_with_fallback, strategies, runSweep, h0, h1, hok]
    · obtain ⟨m0, h0⟩ := hfail 0 (by omega)
      obtain ⟨m1, h1⟩ := hfail 1 (by omega)
      obtain ⟨m2, h2⟩ := hfail 2 (by omega)
      constructor <;>
        simp [extract_info_with_fallback, strategies, runSweep, h0, h1, h2, hok]
    · obtain ⟨m0, h0⟩ := hfail 0 (by omega)
      obtain ⟨m1, h1⟩ := hfail 1 (by omega)
      obtain ⟨m2, h2⟩ := hfail 2 (by omega)
      obtain ⟨m3, h3⟩ := hfail 3 (by omega)
      constructor <;>
        simp [extract_info_with_fallback, strategies, runSweep, h0, h1, h2, h3, hok]
  · intro oc m h
    have h0 := h 0 (by omega)
    have h1 := h 1 (by omega)
    have h2 := h 2 (by omega)
    have h3 := h 3 (by omega)
    have h4 := h 4 (by omega)
    constructor <;>
      simp [extract_info_with_fallback, strategies, runSweep, h0, h1, h2, h3, h4]

/-- Concrete strategy behaviour for the C2 witness: the first two
strategies raise, the third returns metadata. -/
def sweepWitnessOutcomes : Nat → StratOutcome := fun j =>
  if j == 2 then .ok (some ⟨"T", "U", 5⟩) else .err "boom"

/-- Witness for `C2_fallback_sweep_first_success` at a concrete input:
strategies 0 and 1 fail, strategy 2 (`geo_bypass`) succeeds after exactly
3 attempts. -/
theorem C2_fallback_sweep_first_success_witness :
    (extract_info_with_fallback sweepWitnessOutcomes).calls = 3 ∧
    (extract_info_with_fallback sweepWitnessOutcomes).result = .ok ⟨"T", "U", 5⟩ :=
  C2_fallback_sweep_first_success.2.2.1 sweepWitnessOutcomes 2 ⟨"T", "U", 5⟩
    (by omega)
    (fun j hj => ⟨"boom", by
      have : j ≠ 2 := by omega
      simp [sweepWitnessOutcomes, this]⟩)
    (by decide)

/-! ## Claims C4 and C5 -/

/-- A timed-out tier never passes the success check. -/
theorem tierSuccess_timedOut (e : Bool) (s : Nat) :
    tierSuccess (.timedOut e s) = false := rfl

/-- C4: `convert_to_hevc` attempts, in strict order and stopping at the
first success, HEVC (`libx265`), then H.264 (`libx264`), then a
stream-copy remux; a tier succeeds exactly when the encoder process exits
successfully and the output file exists with size > 0; the H.264 tier is
entered only after the HEVC tier ran and failed, the remux tier only
after both encode tiers ran and failed, and the HEVC command is attempted
exactly once before any fallback. -/
theorem C4_transcode_fallback_order (env : ConvertEnv) (hp : env.probe = .ok) :
    (∀ rcZero outExists outSize,
      tierSuccess (.ran rcZero outExists outSize) =
        (rcZero && outExists && decide (0 < outSize))) ∧
    (tierSuccess env.hevc = true →
      convertAttempts env = [Tier.hevc] ∧ convertCore env = .ok Tier.hevc) ∧
    (∀ rc e s, env.hevc = .ran rc e s → tierSuccess env.hevc = false →
      tierSuccess env.h264 = true →
      convertAttempts env = [Tier.hevc, Tier.h264] ∧
      convertCore env = .ok Tier.h264) ∧
    (∀ rc e s rc2 e2 s2, env.hevc = .ran rc e s → tierSuccess env.hevc = false →
      env.h264 = .ran rc2 e2 s2 → tierSuccess env.h264 = false →
      tierSuccess env.remux = true →
      convertAttempts env = [Tier.hevc, Tier.h264, Tier.remux] ∧
      convertCore env = .ok Tier.remux) ∧
    ((convertAttempts env).count Tier.hevc ≤ 1) ∧
    ((hevcCmdSpec "in.mp4" "out.mkv").cmd.contains "libx265" = true ∧
     (h264CmdSpec "in.mp4" "out.mkv").cmd.contains "libx264" = true ∧
     (remuxCmdSpec "in.mp4" "out.mkv").cmd.contains "copy" = true) := by
  refine ⟨fun _ _ _ => rfl, ?_, ?_, ?_, ?_, by decide, by decide, by decide⟩
  · intro hs
    unfold convertAttempts convertCore
    rw [hp]
    simp [hs]
  · intro rc e s hran hfail hs2
    unfold convertAttempts convertCore
    rw [hp, hran]
    rw [hran] at hfail
    simp [hfail, hs2]
  · intro rc e s rc2 e2 s2 hran hfail hran2 hfail2 hs3
    unfold convertAttempts convertCore
    rw [hp, hran, hran2]
    rw [hran] at hfail
    rw [hran2] at hfail2
    simp [hfail, hfail2, hs3]
  · unfold convertAttempts
    rw [hp]
    simp only []
    by_cases h1 : tierSuccess env.hevc = true
    · simp [h1]
    · rw [if_neg h1]
      rcases hh : env.hevc with ⟨e, s⟩ | ⟨rc, e, s⟩
      · simp
      · simp only []
        by_cases h2 : tierSuccess env.h264 = true
        · simp [h2]
        · rw [if_neg h2]
          rcases hh2 : env.h264 with ⟨e2, s2⟩ | ⟨rc2, e2, s2⟩
          · simp
          · simp

/-- Witness for `C4_transcode_fallback_order`: HEVC fails with a nonzero
exit status, H.264 succeeds; the ladder runs exactly
`[Tier.hevc, Tier.h264]` and stops. -/
theorem C4_transcode_fallback_order_witness :
    (convertAttempts ⟨.ok, .ran false true 10, .ran true true 20,
        .ran true true 20, "", true⟩ = [Tier.hevc, Tier.h264] ∧
      convertCore ⟨.ok, .ran false true 10, .ran true true 20,
        .ran true true 20, "", true⟩ = .ok Tier.h264) ∧
    (convertAttempts ⟨.ok, .ran true true 7, .ran true true 20,
        .ran true true 20, "", true⟩ = [Tier.hevc] ∧
      convertCore ⟨.ok, .ran true true 7, .ran true true 20,
        .ran true true 20, "", true⟩ = .ok Tier.hevc) :=
  ⟨(C4_transcode_fallback_order _ rfl).2.2.1 false true 10 rfl (by decide) (by decide),
   (C4_transcode_fallback_order _ rfl).2.1 (by decide)⟩

/-- C5: a timeout at any transcode tier aborts the ladder — no further
tier is attempted and the whole operation fails with the timeout error;
no tier is ever attempted twice; the encode tiers carry an 1800-second
subprocess timeout and the remux tier a 600-second one. -/
theorem C5_transcode_timeout_terminal (env : ConvertEnv) (hp : env.probe = .ok) :
    (∀ e s, env.hevc = .timedOut e s →
      convertAttempts env = [Tier.hevc] ∧ convert_to_hevc env = .error timeoutMsg) ∧
    (∀ rc e0 s0 e s, env.hevc = .ran rc e0 s0 → tierSuccess env.hevc = false →
      env.h264 = .timedOut e s →
      convertAttempts env = [Tier.hevc, Tier.h264] ∧
      convert_to_hevc env = .error timeoutMsg) ∧
    (∀ rc e0 s0 rc2 e1 s1 e s, env.hevc = .ran rc e0 s0 →
      tierSuccess env.hevc = false →
      env.h264 = .ran rc2 e1 s1 → tierSuccess env.h264 = false →
      env.remux = .timedOut e s →
      convertAttempts env = [Tier.hevc, Tier.h264, Tier.remux] ∧
      convert_to_hevc env = .error timeoutMsg) ∧
    (∀ t, (convertAttempts env).count t ≤ 1) ∧
    ((hevcCmdSpec "in.mp4" "out.mkv").timeoutSecs = 1800 ∧
     (h264CmdSpec "in.mp4" "out.mkv").timeoutSecs = 1800 ∧
     (remuxCmdSpec "in.mp4" "out.mkv").timeoutSecs = 600) := by
  refine ⟨?_, ?_, ?_, ?_, rfl, rfl, rfl⟩
  · intro e s htm
    unfold convertAttempts convert_to_hevc convertCore
    rw [hp, htm]
    simp [tierSuccess_timedOut]
  · intro rc e0 s0 e s hran hfail htm
    unfold convertAttempts convert_to_hevc convertCore
    rw [hp, hran, htm]
    rw [hran] at hfail
    simp [hfail, tierSuccess_timedOut]
  · intro rc e0 s0 rc2 e1 s1 e s hran hfail hran2 hfail2 htm
    unfold convertAttempts convert_to_hevc convertCore
    rw [hp, hran, hran2, htm]
    rw [hran] at hfail
    rw [hran2] at hfail2
    simp [hfail, hfail2, tierSuccess_timedOut]
  · intro t
    unfold convertAttempts
    rw [hp]
    simp only []
    by_cases h1 : tierSuccess env.hevc = true
    · rw [if_pos h1]; cases t <;> decide
    · rw [if_neg h1]
      rcases hh : env.hevc with ⟨e, s⟩ | ⟨rc, e, s⟩
      · simp only []; cases t <;> decide
      · simp only []
        by_cases h2 : tierSuccess env.h264 = true
        · rw [if_pos h2]; cases t <;> decide
        · rw [if_neg h2]
          rcases hh2 : env.h264 with ⟨e2, s2⟩ | ⟨rc2, e2, s2⟩
          · simp only []; cases t <;> decide
          · simp only []; cases t <;> decide

/-- Witness for `C5_transcode_timeout_terminal`: the H.264 tier times
out after a failed HEVC tier; the ladder stops there and the whole
conversion surfaces the timeout error. -/
theorem C5_transcode_timeout_terminal_witness :
    convertAttempts ⟨.ok, .ran false true 10, .timedOut true 3,
        .ran true true 20, "", true⟩ = [Tier.hevc, Tier.h264] ∧
    convert_to_hevc ⟨.ok, .ran false true 10, .timedOut true 3,
        .ran true true 20, "", true⟩ = .error timeoutMsg :=
  (C5_transcode_timeout_terminal _ rfl).2.1 false true 10 true 3 rfl (by decide) rfl

/-! ## Claim C9 -/

theorem pickLargest_cons (f x : FileEntry) (xs : List FileEntry) :
    pickLargest f (x :: xs) = pickLargest (if f.size < x.size then x else f) xs := rfl

/-- The selected candidate is one of the candidates. -/
theorem pickLargest_mem (f : FileEntry) (rest : List FileEntry) :
    pickLargest f rest ∈ f :: rest := by
  induction rest generalizing f with
  | nil => simp [pickLargest]
  | cons x xs ih =>
    rw [pickLargest_cons]
    rcases List.mem_cons.mp (ih (if f.size < x.size then x else f)) with h | h
    · rw [h]
      by_cases hc : f.size < x.size <;> simp [hc]
    · simp [h]

/-- The selected candidate has maximal size among the candidates. -/
theorem pickLargest_max (f : FileEntry) (rest : List FileEntry) :
    ∀ g ∈ f :: rest, g.size ≤ (pickLargest f rest).size := by
  induction rest generalizing f with
  | nil => intro g hg; simp at hg; simp [hg, pickLargest]
  | cons x xs ih =>
    intro g hg
    rw [pickLargest_cons]
    have base := ih (if f.size < x.size then x else f)
    have hf : f.size ≤ (pickLargest (if f.size < x.size then x else f) xs).size := by
      by_cases hc : f.size < x.size
      · exact le_trans (le_of_lt hc) (base _ (by simp [hc]))
      · exact base _ (by simp [hc])
    have hx : x.size ≤ (pickLargest (if f.size < x.size then x else f) xs).size := by
      by_cases hc : f.size < x.size
      · exact base _ (by simp [hc])
      · exact le_trans (Nat.le_of_not_lt hc) (base _ (by simp [hc]))
    rcases List.mem_cons.mp hg with h | h
    · rw [h]; exact hf
    · rcases List.mem_cons.mp h with h' | h'
      · rw [h']; exact hx
      · exact base g (List.mem_cons_of_mem _ h')

/-- C9 fails as stated: a zero-byte largest candidate is a failure with
cleanup, but it is NOT retried — `"Downloaded file is empty"` matches
neither `'rate limited'` nor `'bot'`, so `download_video` makes exactly
one underlying call and propagates the error; the claim's "cleanup and
retry" would require a second call.  The same holds for an empty
candidate set. -/
theorem C9_zero_byte_not_retried_counterexample :
    (download_video (fun _ => DlAttempt.ok [⟨"mp4", 0⟩] true)).result =
        .error "Downloaded file is empty" ∧
    (download_video (fun _ => DlAttempt.ok [⟨"mp4", 0⟩] true)).calls = 1 ∧
    (download_video (fun _ => DlAttempt.ok [⟨"mp4", 0⟩] true)).files = [] ∧
    (download_video (fun _ => DlAttempt.ok [] true)).result =
        .error "Download completed but no file was created" ∧
    (download_video (fun _ => DlAttempt.ok [] true)).calls = 1 := by
  refine ⟨by decide, by decide, by decide, by decide, by decide⟩

/-- C9 (amended): after a fetch completes, `download_video` returns the
candidate of largest byte size (the 5000-byte file among candidates of
sizes 120, 0, 5000); a zero-byte largest candidate or an empty candidate
set is treated as a failure that triggers cleanup of every candidate and
immediate propagation of the error (no retry, because neither failure
message is classified retryable); the non-selected candidates are
discarded by the explicit cleanup operation. -/
theorem C9_largest_selection_amended :
    (∀ (f : FileEntry) (rest : List FileEntry),
      pickLargest f rest ∈ f :: rest ∧
      ∀ g ∈ f :: rest, g.size ≤ (pickLargest f rest).size) ∧
    ((download_video (fun _ =>
        DlAttempt.ok [⟨"a", 120⟩, ⟨"b", 0⟩, ⟨"c", 5000⟩] true)).result =
      .ok ⟨"c", 5000⟩) ∧
    (∀ valid, downloadAttemptMsg (.ok [] valid) =
      .error "Download completed but no file was created") ∧
    (∀ (f : FileEntry) (rest : List FileEntry) (valid : Bool),
      (pickLargest f rest).size = 0 →
      downloadAttemptMsg (.ok (f :: rest) valid) =
        .error "Downloaded file is empty") ∧
    retryablePhrase "Downloaded file is empty" = false ∧
    retryablePhrase "Download completed but no file was created" = false ∧
    (∀ (att : Nat → DlAttempt) (i fuel : Nat) (em : String),
      downloadAttemptMsg (att i) = .error em → retryablePhrase em = false →
      (runDownload att i (fuel + 1)).result = .error em ∧
      (runDownload att i (fuel + 1)).calls = 1 ∧
      (runDownload att i (fuel + 1)).files = []) ∧
    (∀ tbl fs taskId, ((cleanup_task tbl fs taskId).2).tempFiles = []) := by
  refine ⟨fun f rest => ⟨pickLargest_mem f rest, pickLargest_max f rest⟩,
          by decide, fun valid => rfl, ?_, by decide, by decide, ?_,
          fun _ _ _ => rfl⟩
  · intro f rest valid hz
    simp only [downloadAttemptMsg]
    rw [if_pos (by simp [hz])]
  · intro att i fuel em h hnr
    unfold runDownload
    rw [h]
    simp only []
    rw [if_neg (by simp [hnr])]
    exact ⟨rfl, rfl, rfl⟩

/-- Witness for `C9_largest_selection_amended` at the spec's concrete
candidate sizes and a concrete non-retryable failure. -/
theorem C9_largest_selection_amended_witness :
    (pickLargest ⟨"a", 120⟩ [⟨"b", 0⟩, ⟨"c", 5000⟩] ∈
        ([⟨"a", 120⟩, ⟨"b", 0⟩, ⟨"c", 5000⟩] : List FileEntry)) ∧
    downloadAttemptMsg (.ok [⟨"mp4", 0⟩] true) = .error "Downloaded file is empty" ∧
    (runDownload (fun _ => DlAttempt.ok [⟨"mp4", 0⟩] true) 0 (2 + 1)).calls = 1 :=
  ⟨(C9_largest_selection_amended.1 ⟨"a", 120⟩ [⟨"b", 0⟩, ⟨"c", 5000⟩]).1,
   C9_largest_selection_amended.2.2.2.1 ⟨"mp4", 0⟩ [] true (by decide),
   (C9_largest_selection_amended.2.2.2.2.2.2.1
      (fun _ => DlAttempt.ok [⟨"mp4", 0⟩] true) 0 2 "Downloaded file is empty"
      (by decide) (by decide)).2.1⟩

/-! ## Orchestrator trace facts -/

/-- Every user-facing extraction failure message is `❌`-tagged. -/
theorem extractFailureUserMsg_tagged (em : String) :
    startsWithX (extractFailureUserMsg em) "❌" = true := by
  simp only [extractFailureUserMsg]
  split_ifs <;>
    first
      | decide
      | exact startsWithX_append "❌ Extraction failed: " em "❌" (by decide)

/-- Every user-facing download failure message is `❌`-tagged. -/
theorem downloadFailureUserMsg_tagged (em : String) :
    startsWithX (downloadFailureUserMsg em) "❌" = true := by
  simp only [downloadFailureUserMsg]
  split_ifs <;>
    first
      | decide
      | exact startsWithX_append "❌ Download failed: " em "❌" (by decide)

/-- The terminal handler always leaves the task in status `error`. -/
theorem outerHandler_status (v : TaskView) (em : String) :
    (outerHandler v em).status = "error" := by
  unfold outerHandler
  split
  · rfl
  · next h => simpa using h

/-- The terminal handler always leaves a `❌`-tagged message, provided
any pre-existing `error` state already carried one. -/
theorem outerHandler_tagged (v : TaskView) (em : String)
    (h : v.status = "error" → startsWithX v.message "❌" = true) :
    startsWithX (outerHandler v em).message "❌" = true := by
  unfold outerHandler
  split
  · simp only []
    split
    · assumption
    · exact startsWithX_append "❌ Error: " em "❌" (by decide)
  · next hne => exact h (by simpa using hne)

/-- The per-snapshot facts the orchestrator guarantees for one task:
statuses come from the three-valued machine; an `error` snapshot carries
a `❌`-tagged message and no temp candidates; a `ready` snapshot has the
output artifact in place (non-empty), records the fixed output filename,
and no longer holds the selected intermediate file. -/
def SnapGood (taskId : String) (d : DlRes) (p : TaskView × Fs) : Prop :=
  (p.1.status = "processing" ∨ p.1.status = "ready" ∨ p.1.status = "error") ∧
  (p.1.status = "error" →
    startsWithX p.1.message "❌" = true ∧ p.2.tempFiles = []) ∧
  (p.1.status = "ready" →
    p.2.outputExists = true ∧ 0 < p.2.outputSize ∧
    p.1.filename = some (taskId ++ ".mkv") ∧
    ∀ f, d.result = .ok f → f ∉ p.2.tempFiles)

theorem snapGood_processing (taskId : String) (d : DlRes) (v : TaskView) (fs : Fs)
    (hv : v.status = "processing") : SnapGood taskId d (v, fs) :=
  ⟨Or.inl hv,
   fun h => absurd (hv.symm.trans h) (by decide),
   fun h => absurd (hv.symm.trans h) (by decide)⟩

theorem snapGood_error (taskId : String) (d : DlRes) (v : TaskView) (fs : Fs)
    (hs : v.status = "error") (hm : startsWithX v.message "❌" = true)
    (hf : fs.tempFiles = []) : SnapGood taskId d (v, fs) :=
  ⟨Or.inr (Or.inr hs), fun _ => ⟨hm, hf⟩,
   fun h => absurd (hs.symm.trans h) (by decide)⟩

theorem snapGood_ready (taskId : String) (d : DlRes) (v : TaskView) (fs : Fs)
    (hs : v.status = "ready") (h1 : fs.outputExists = true) (h2 : 0 < fs.outputSize)
    (h3 : v.filename = some (taskId ++ ".mkv"))
    (h4 : ∀ f, d.result = .ok f → f ∉ fs.tempFiles) :
    SnapGood taskId d (v, fs) :=
  ⟨Or.inr (Or.inl hs), fun h => absurd (hs.symm.trans h) (by decide),
   fun _ => ⟨h1, h2, h3, h4⟩⟩

/-- Every snapshot produced from the metadata-in-hand point on satisfies
`SnapGood`. -/
theorem afterInfo_snapGood (sc : Scenario) (taskId : String) (v : TaskView)
    (fs : Fs) (oinfo : Option VInfo) (hv : v.status = "processing") :
    ∀ p ∈ afterInfo sc taskId v fs oinfo,
      SnapGood taskId (download_video sc.dlAtt) p := by
  cases oinfo with
  | none =>
    intro p hp
    simp only [afterInfo, List.mem_singleton] at hp
    subst hp
    exact snapGood_error _ _ _ _ (outerHandler_status _ _)
      (outerHandler_tagged _ _ (fun h => absurd (hv.symm.trans h) (by decide))) rfl
  | some vi =>
    intro p hp
    simp only [afterInfo] at hp
    rcases hd : (download_video sc.dlAtt).result with em | f
    · rw [hd] at hp
      simp only [List.mem_cons, List.not_mem_nil, or_false] at hp
      rcases hp with rfl | rfl
      · exact snapGood_processing _ _ _ _ hv
      · exact snapGood_error _ _ _ _ (outerHandler_status _ _)
          (outerHandler_tagged _ _ (fun _ => downloadFailureUserMsg_tagged em)) rfl
    · rw [hd] at hp
      simp only [] at hp
      by_cases hc : (List.contains (download_video sc.dlAtt).files f) = true
      · rw [if_pos hc] at hp
        rcases hcv : convert_to_hevc sc.conv with em | t
        · rw [hcv] at hp
          simp only [] at hp
          by_cases hh : containsSubstr (lowerStr em) "hevc encoder" = true
          · rw [if_pos hh] at hp
            by_cases ho : ((convertOutState sc.conv (fs.outputExists, fs.outputSize)).1 &&
                decide (0 < (convertOutState sc.conv (fs.outputExists, fs.outputSize)).2)) = true
            · rw [if_pos ho] at hp
              simp only [List.mem_cons, List.not_mem_nil, or_false] at hp
              rcases hp with rfl | rfl | rfl
              · exact snapGood_processing _ _ _ _ hv
              · exact snapGood_processing _ _ _ _ hv
              · rw [Bool.and_eq_true] at ho
                refine snapGood_ready _ _ _ _ rfl ho.1 (of_decide_eq_true ho.2) rfl ?_
                intro f' hf'
                rw [hd] at hf'
                cases hf'
                simp [unlinkTemp, List.mem_filter]
            · rw [if_neg ho] at hp
              simp only [List.mem_cons, List.not_mem_nil, or_false] at hp
              rcases hp with rfl | rfl | rfl
              · exact snapGood_processing _ _ _ _ hv
              · exact snapGood_processing _ _ _ _ hv
              · exact snapGood_error _ _ _ _ (outerHandler_status _ _)
                  (outerHandler_tagged _ _ (fun h => absurd (hv.symm.trans h) (by decide))) rfl
          · rw [if_neg hh] at hp
            simp only [List.mem_cons, List.not_mem_nil, or_false] at hp
            rcases hp with rfl | rfl | rfl
            · exact snapGood_processing _ _ _ _ hv
            · exact snapGood_processing _ _ _ _ hv
            · refine snapGood_error _ _ _ _ (outerHandler_status _ _)
                (outerHandler_tagged _ _ (fun _ =>
                  startsWithX_append "❌ Conversion failed: " em "❌" (by decide))) rfl
        · rw [hcv] at hp
          simp only [] at hp
          by_cases ho : ((convertOutState sc.conv (fs.outputExists, fs.outputSize)).1 &&
              decide (0 < (convertOutState sc.conv (fs.outputExists, fs.outputSize)).2)) = true
          · rw [if_pos ho] at hp
            simp only [List.mem_cons, List.not_mem_nil, or_false] at hp
            rcases hp with rfl | rfl | rfl
            · exact snapGood_processing _ _ _ _ hv
            · exact snapGood_processing _ _ _ _ hv
            · rw [Bool.and_eq_true] at ho
              refine snapGood_ready _ _ _ _ rfl ho.1 (of_decide_eq_true ho.2) rfl ?_
              intro f' hf'
              rw [hd] at hf'
              cases hf'
              simp [unlinkTemp, List.mem_filter]
          · rw [if_neg ho] at hp
            simp only [List.mem_cons, List.not_mem_nil, or_false] at hp
            rcases hp with rfl | rfl | rfl
            · exact snapGood_processing _ _ _ _ hv
            · exact snapGood_processing _ _ _ _ hv
            · exact snapGood_error _ _ _ _ (outerHandler_status _ _)
                (outerHandler_tagged _ _ (fun h => absurd (hv.symm.trans h) (by decide))) rfl
      · rw [if_neg hc] at hp
        simp only [List.mem_cons, List.not_mem_nil, or_false] at hp
        rcases hp with rfl | rfl
        · exact snapGood_processing _ _ _ _ hv
        · exact snapGood_error _ _ _ _ (outerHandler_status _ _)
            (outerHandler_tagged _ _ (fun h => absurd (hv.symm.trans h) (by decide))) rfl

/-- Every snapshot except possibly the last still has status
`processing`: terminal statuses only appear at the end of a trace. -/
def PrefixProcessing (l : List (TaskView × Fs)) : Prop :=
  ∀ k (hk : k < l.length), k + 1 < l.length → (l.get ⟨k, hk⟩).1.status = "processing"

theorem prefixProcessing_one (a : TaskView × Fs) : PrefixProcessing [a] := by
  intro k hk hk1
  simp only [List.length_cons, List.length_nil] at hk hk1
  omega

theorem prefixProcessing_two (a b : TaskView × Fs)
    (ha : a.1.status = "processing") : PrefixProcessing [a, b] := by
  intro k hk hk1
  simp only [List.length_cons, List.length_nil] at hk1
  have hk0 : k = 0 := by omega
  subst hk0
  exact ha

theorem prefixProcessing_three (a b c : TaskView × Fs)
    (ha : a.1.status = "processing") (hb : b.1.status = "processing") :
    PrefixProcessing [a, b, c] := by
  intro k hk hk1
  simp only [List.length_cons, List.length_nil] at hk1
  have : k = 0 ∨ k = 1 := by omega
  rcases this with rfl | rfl
  · exact ha
  · exact hb

theorem prefixProcessing_cons (a : TaskView × Fs) (l : List (TaskView × Fs))
    (ha : a.1.status = "processing") (hl : PrefixProcessing l) :
    PrefixProcessing (a :: l) := by
  intro k hk hk1
  cases k with
  | zero => exact ha
  | succ n =>
    exact hl n (by simpa using hk) (by simpa using hk1)

/-- The post-metadata steps always produce at least one snapshot, and
terminal statuses only at the last one. -/
theorem afterInfo_shape (sc : Scenario) (taskId : String) (v : TaskView)
    (fs : Fs) (oinfo : Option VInfo) (hv : v.status = "processing") :
    afterInfo sc taskId v fs oinfo ≠ [] ∧
    PrefixProcessing (afterInfo sc taskId v fs oinfo) := by
  cases oinfo with
  | none => exact ⟨by simp [afterInfo], prefixProcessing_one _⟩
  | some vi =>
    simp only [afterInfo]
    rcases hd : (download_video sc.dlAtt).result with em | f
    · exact ⟨by simp, prefixProcessing_two _ _ hv⟩
    · simp only []
      by_cases hc : (List.contains (download_video sc.dlAtt).files f) = true
      · rw [if_pos hc]
        rcases hcv : convert_to_hevc sc.conv with em | t
        · simp only []
          by_cases hh : containsSubstr (lowerStr em) "hevc encoder" = true
          · rw [if_pos hh]
            by_cases ho : ((convertOutState sc.conv (fs.outputExists, fs.outputSize)).1 &&
                decide (0 < (convertOutState sc.conv (fs.outputExists, fs.outputSize)).2)) = true
            · rw [if_pos ho]
              exact ⟨by simp, prefixProcessing_three _ _ _ hv hv⟩
            · rw [if_neg ho]
              exact ⟨by simp, prefixProcessing_three _ _ _ hv hv⟩
          · rw [if_neg hh]
            exact ⟨by simp, prefixProcessing_three _ _ _ hv hv⟩
        · simp only []
          by_cases ho : ((convertOutState sc.conv (fs.outputExists, fs.outputSize)).1 &&
              decide (0 < (convertOutState sc.conv (fs.outputExists, fs.outputSize)).2)) = true
          · rw [if_pos ho]
            exact ⟨by simp, prefixProcessing_three _ _ _ hv hv⟩
          · rw [if_neg ho]
            exact ⟨by simp, prefixProcessing_three _ _ _ hv hv⟩
      · rw [if_neg hc]
        exact ⟨by simp, prefixProcessing_two _ _ hv⟩

/-- Master fact about one orchestration run: every snapshot satisfies
`SnapGood`, and terminal statuses appear only at the last snapshot. -/
theorem trace_facts (sc : Scenario) (taskId url : String) (rn : Option String)
    (fs0 : Fs) :
    (∀ p ∈ download_video_task sc taskId url rn initView fs0,
       SnapGood taskId (download_video sc.dlAtt) p) ∧
    PrefixProcessing (download_video_task sc taskId url rn initView fs0) := by
  unfold download_video_task
  simp only []
  rcases hres : (extract_info sc.extractAtt).result with em | oinfo
  · simp only []
    by_cases hb : (containsSubstr (lowerStr em) "blocked" ||
        containsSubstr (lowerStr em) "bot") = true
    · rw [if_pos hb]
      rcases hsw : (extract_info_with_fallback sc.sweepAtt).result with em2 | info
      · constructor
        · intro p hp
          simp only [List.mem_cons, List.not_mem_nil, or_false] at hp
          rcases hp with rfl | rfl | rfl
          · exact snapGood_processing _ _ _ _ rfl
          · exact snapGood_processing _ _ _ _ rfl
          · exact snapGood_error _ _ _ _ (outerHandler_status _ _)
              (outerHandler_tagged _ _ (fun _ => extractFailureUserMsg_tagged em2)) rfl
        · exact prefixProcessing_three _ _ _ rfl rfl
      · constructor
        · intro p hp
          simp only [List.mem_cons] at hp
          rcases hp with rfl | rfl | hp
          · exact snapGood_processing _ _ _ _ rfl
          · exact snapGood_processing _ _ _ _ rfl
          · exact afterInfo_snapGood sc taskId _ _ _ rfl p hp
        · refine prefixProcessing_cons _ _ rfl (prefixProcessing_cons _ _ rfl ?_)
          exact (afterInfo_shape sc taskId _ _ _ rfl).2
    · rw [if_neg hb]
      constructor
      · intro p hp
        simp only [List.mem_cons, List.not_mem_nil, or_false] at hp
        rcases hp with rfl | rfl
        · exact snapGood_processing _ _ _ _ rfl
        · exact snapGood_error _ _ _ _ (outerHandler_status _ _)
            (outerHandler_tagged _ _ (fun _ => extractFailureUserMsg_tagged em)) rfl
      · exact prefixProcessing_two _ _ rfl
  · simp only []
    constructor
    · intro p hp
      simp only [List.mem_cons] at hp
      rcases hp with rfl | hp
      · exact snapGood_processing _ _ _ _ rfl
      · exact afterInfo_snapGood sc taskId _ _ _ rfl p hp
    · exact prefixProcessing_cons _ _ rfl (afterInfo_shape sc taskId _ _ _ rfl).2

/-! ## Claims C3, C6, C7, C8, C10 -/

/-- A fully successful run, used as concrete input by several witnesses:
extraction succeeds at once, the fetch leaves two candidates (the larger
is selected and validated), and the HEVC tier succeeds. -/
def happyScenario : Scenario :=
  { extractAtt := fun _ => .ok (some ⟨"My Video", "http://t", 65⟩),
    sweepAtt := fun _ => .err "x",
    dlAtt := fun _ => .ok [⟨"mp4", 5000⟩, ⟨"webm", 120⟩] true,
    conv := ⟨.ok, .ran true true 999, .ran false false 0, .ran false false 0, "", true⟩ }

/-- A run whose extraction is rate-limited on every attempt: the retry
loop exhausts its 3 attempts and the orchestrator ends the task in
`error`. -/
def rateLimitedScenario : Scenario :=
  { extractAtt := fun _ => .dlError "HTTP Error 429: Too Many Requests",
    sweepAtt := fun _ => .err "x",
    dlAtt := fun _ => .ok [] true,
    conv := ⟨.ok, .ran true true 1, .ran true true 1, .ran true true 1, "", true⟩ }

/-- A run whose download fails with a 403 after leaving a partial file on
disk. -/
def forbiddenDownloadScenario : Scenario :=
  { extractAtt := fun _ => .ok (some ⟨"V", "T", 10⟩),
    sweepAtt := fun _ => .err "x",
    dlAtt := fun _ => .dlError "HTTP Error 403: Forbidden" [⟨"mp4", 100⟩],
    conv := ⟨.ok, .ran true true 1, .ran true true 1, .ran true true 1, "", true⟩ }

/-- C3: once a task's status reaches a terminal value (`ready` or
`error`), no step of the orchestration job mutates the task's record
again — at every later observable point the record is unchanged — and
the only subsequent change is its deletion by the explicit cleanup
operation, which removes the record and all artifacts.  Snapshots are
taken at the job's suspension points: the job runs on a single-threaded
event loop, so states inside one synchronous block are not observable. -/
theorem C3_terminal_status_stable (sc : Scenario) (taskId url : String)
    (rn : Option String) (fs0 : Fs) :
    (∀ (i j : Nat) (hi : i < (entryTrace sc taskId url rn fs0).length)
        (hj : j < (entryTrace sc taskId url rn fs0).length), i ≤ j →
      isTerminalStatus ((entryTrace sc taskId url rn fs0).get ⟨i, hi⟩).1.view.status = true →
      ((entryTrace sc taskId url rn fs0).get ⟨j, hj⟩).1 =
        ((entryTrace sc taskId url rn fs0).get ⟨i, hi⟩).1) ∧
    (∀ (tbl : List (String × TaskEntry)) (fs : Fs) (q : String × TaskEntry),
      q ∈ (cleanup_task tbl fs taskId).1 → q.1 ≠ taskId) ∧
    (∀ (tbl : List (String × TaskEntry)) (fs : Fs),
      (cleanup_task tbl fs taskId).2 = ⟨[], false, 0⟩) := by
  refine ⟨?_, ?_, fun _ _ => rfl⟩
  · intro i j hi hj hij hterm
    have hlen : (entryTrace sc taskId url rn fs0).length =
        (download_video_task sc taskId url rn initView fs0).length := by
      simp [entryTrace]
    by_cases hnext : i + 1 < (entryTrace sc taskId url rn fs0).length
    · exfalso
      have hi' : i < (download_video_task sc taskId url rn initView fs0).length := by
        omega
      have hst := (trace_facts sc taskId url rn fs0).2 i hi' (by omega)
      simp only [entryTrace, List.get_eq_getElem, List.getElem_map] at hterm
      rw [List.get_eq_getElem] at hst
      rw [hst] at hterm
      exact absurd hterm (by decide)
    · have hj_eq : j = i := by omega
      subst hj_eq
      rfl
  · intro tbl fs q hq
    simp only [cleanup_task, List.mem_filter, decide_eq_true_eq] at hq
    exact hq.2

/-- Witness for `C3_terminal_status_stable`: in the concrete successful
run the last snapshot is terminal (`ready`) and the record there is
stable; cleanup of a table with an unrelated entry keeps only keys
different from the task id. -/
theorem C3_terminal_status_stable_witness :
    isTerminalStatus (((entryTrace happyScenario "t1" "u" none ⟨[], false, 0⟩).get
        ⟨3, by decide⟩).1.view.status) = true ∧
    ((entryTrace happyScenario "t1" "u" none ⟨[], false, 0⟩).get ⟨3, by decide⟩).1 =
      ((entryTrace happyScenario "t1" "u" none ⟨[], false, 0⟩).get ⟨3, by decide⟩).1 ∧
    ("x2", start_download "u2" none).1 ≠ "t1" :=
  ⟨by rfl,
   (C3_terminal_status_stable happyScenario "t1" "u" none ⟨[], false, 0⟩).1
     3 3 (by decide) (by decide) (le_refl 3) (by rfl),
   (C3_terminal_status_stable happyScenario "t1" "u" none ⟨[], false, 0⟩).2.1
     [("x2", start_download "u2" none)] ⟨[], false, 0⟩ ("x2", start_download "u2" none)
     (by decide)⟩

/-- C6 fails as stated: a task can end in `error` with a message that
embeds the raw internal exception string and is none of the fixed
category-tagged user-actionable texts.  Concretely, a run whose
extraction is rate-limited on every attempt ends with the message
`"❌ Extraction failed: Rate limited"` — the orchestrator has no
rate-limited branch, so the raw exception string `"Rate limited"` is
embedded verbatim. -/
theorem C6_raw_error_string_counterexample :
    ((download_video_task rateLimitedScenario "t1" "u" none initView ⟨[], false, 0⟩).map
        (fun p => (p.1.status, p.1.message))) =
      [("processing", "Extracting video information (trying browser cookies first)..."),
       ("error", "❌ Extraction failed: Rate limited")] ∧
    classifyExtractError "HTTP Error 429: Too Many Requests" = ErrCategory.rateLimited ∧
    "❌ Extraction failed: Rate limited" ∉ categoryMessages ∧
    containsSubstr "❌ Extraction failed: Rate limited" "Rate limited" = true := by
  refine ⟨by decide, by decide, by decide, by decide⟩

/-- C6 (amended): every task that ends in `error` carries a `❌`-tagged
message, never the bare exception string; for the detected categories
the message is one of the fixed user-actionable texts, but undetected
categories (including rate-limited, which has no dedicated orchestrator
branch) fall back to a tagged message that embeds the raw exception
string. -/
theorem C6_error_message_tagged (sc : Scenario) (taskId url : String)
    (rn : Option String) (fs0 : Fs) :
    (∀ p ∈ download_video_task sc taskId url rn initView fs0,
      p.1.status = "error" → startsWithX p.1.message "❌" = true) ∧
    (∀ em, containsSubstr (lowerStr em) "video access blocked" = true →
      extractFailureUserMsg em = msgExtractBlocked) ∧
    (∀ em, extractFailureUserMsg em = msgExtractBlocked ∨
      extractFailureUserMsg em = msgExtractForbidden ∨
      extractFailureUserMsg em = msgExtractNotFound ∨
      extractFailureUserMsg em = msgExtractMaxRetries ∨
      extractFailureUserMsg em = "❌ Extraction failed: " ++ em) ∧
    (∀ em, downloadFailureUserMsg em = msgDlBlocked ∨
      downloadFailureUserMsg em = msgDlForbidden ∨
      downloadFailureUserMsg em = msgDlNotFound ∨
      downloadFailureUserMsg em = msgDlPrivate ∨
      downloadFailureUserMsg em = msgDlMaxRetries ∨
      downloadFailureUserMsg em = "❌ Download failed: " ++ em) := by
  refine ⟨?_, ?_, ?_, ?_⟩
  · intro p hp he
    exact (((trace_facts sc taskId url rn fs0).1 p hp).2.1 he).1
  · intro em h
    simp only [extractFailureUserMsg]
    rw [if_pos (by rw [Bool.or_eq_true]; exact Or.inl h)]
  · intro em
    simp only [extractFailureUserMsg]
    split_ifs <;> tauto
  · intro em
    simp only [downloadFailureUserMsg]
    split_ifs <;> tauto

/-- Witness for `C6_error_message_tagged`: the rate-limited run ends in
`error` and its message is `❌`-tagged. -/
theorem C6_error_message_tagged_witness :
    startsWithX "❌ Extraction failed: Rate limited" "❌" = true :=
  (C6_error_message_tagged rateLimitedScenario "t1" "u" none ⟨[], false, 0⟩).1
    (⟨⟨"error", "extracting", "❌ Extraction failed: Rate limited", none, none⟩,
      ⟨[], false, 0⟩⟩)
    (by decide) (by decide)

/-- C7: at every observable point where a run has reached `ready`, the
output artifact exists at the single expected path
`downloads/{taskId}.mkv` with non-zero size, the recorded filename is
`{taskId}.mkv`, and the intermediate fetched file returned by the
download phase is no longer on disk. -/
theorem C7_ready_artifact (sc : Scenario) (taskId url : String)
    (rn : Option String) (fs0 : Fs) :
    (∀ p ∈ download_video_task sc taskId url rn initView fs0,
      p.1.status = "ready" →
        p.2.outputExists = true ∧ 0 < p.2.outputSize ∧
        p.1.filename = some (taskId ++ ".mkv") ∧
        ∀ f, (download_video sc.dlAtt).result = .ok f → f ∉ p.2.tempFiles) ∧
    outputPath taskId = "downloads/" ++ (taskId ++ ".mkv") := by
  refine ⟨?_, by simp [outputPath, String.append_assoc]⟩
  intro p hp hr
  exact ((trace_facts sc taskId url rn fs0).1 p hp).2.2 hr

/-- Witness for `C7_ready_artifact`: the concrete successful run's
`ready` snapshot has the artifact in place, the recorded name
`t1.mkv`, and the selected `mp4` candidate deleted. -/
theorem C7_ready_artifact_witness :
    (⟨[⟨"webm", 120⟩], true, 999⟩ : Fs).outputExists = true ∧
    0 < (⟨[⟨"webm", 120⟩], true, 999⟩ : Fs).outputSize ∧
    (some "t1.mkv" : Option String) = some ("t1" ++ ".mkv") ∧
    ∀ f, (download_video happyScenario.dlAtt).result = .ok f →
      f ∉ (⟨[⟨"webm", 120⟩], true, 999⟩ : Fs).tempFiles :=
  (C7_ready_artifact happyScenario "t1" "u" none ⟨[], false, 0⟩).1
    (⟨⟨"ready", "ready", "✅ Video ready for download!",
       some ⟨"My Video", "http://t", "01:05"⟩, some "t1.mkv"⟩,
      ⟨[⟨"webm", 120⟩], true, 999⟩⟩)
    (by decide) (by decide)

/-- C8: whenever a task is observed in status `error`, no partial fetch
artifacts `temp/{taskId}_temp.*` remain for it; moreover every failure
exit of the download loop itself has already wiped the candidate files
before propagating its error. -/
theorem C8_no_partial_artifacts_on_error (sc : Scenario) (taskId url : String)
    (rn : Option String) (fs0 : Fs) :
    (∀ p ∈ download_video_task sc taskId url rn initView fs0,
      p.1.status = "error" → p.2.tempFiles = []) ∧
    (∀ (att : Nat → DlAttempt) (i fuel : Nat) (em : String),
      (runDownload att i fuel).result = .error em →
      (runDownload att i fuel).files = []) := by
  refine ⟨?_, runDownload_error_files⟩
  intro p hp he
  exact (((trace_facts sc taskId url rn fs0).1 p hp).2.1 he).2

/-- Witness for `C8_no_partial_artifacts_on_error`: a run whose download
fails with a 403 (after a partial file existed on disk) ends in `error`
with no temp candidates left, and the download loop itself ends with an
empty candidate set. -/
theorem C8_no_partial_artifacts_on_error_witness :
    (⟨[], false, 0⟩ : Fs).tempFiles = [] ∧
    (runDownload (fun _ => DlAttempt.dlError "HTTP Error 403: Forbidden"
        [⟨"mp4", 100⟩]) 0 3).files = [] :=
  ⟨(C8_no_partial_artifacts_on_error forbiddenDownloadScenario "t1" "u" none
      ⟨[], false, 0⟩).1
    (⟨⟨"error", "downloading",
       downloadFailureUserMsg "Access forbidden. Video may be region-locked, private, or require authentication. Try uploading cookies.txt.",
       some ⟨"V", "T", "00:10"⟩, none⟩, ⟨[], false, 0⟩⟩)
    (by decide) (by decide),
   (C8_no_partial_artifacts_on_error forbiddenDownloadScenario "t1" "u" none
      ⟨[], false, 0⟩).2
    (fun _ => DlAttempt.dlError "HTTP Error 403: Forbidden" [⟨"mp4", 100⟩]) 0 3
    "Access forbidden. Video may be region-locked, private, or require authentication. Try uploading cookies.txt."
    (by decide)⟩

/-- C10: the optional rename hint supplied at creation is stored in the
task record and passed to the background job, but it never influences the
job's behaviour: the trace is identical for any two hints, the on-disk
artifact path is the fixed `downloads/{taskId}.mkv`, and the recorded
filename on `ready` is `{taskId}.mkv`. -/
theorem C10_rename_hint_inert (sc : Scenario) (taskId url : String)
    (r1 r2 : Option String) (fs0 : Fs) :
    download_video_task sc taskId url r1 initView fs0 =
      download_video_task sc taskId url r2 initView fs0 ∧
    (start_download url r1).rename = r1 ∧
    (start_download url r1).view = initView ∧
    outputPath taskId = "downloads/" ++ (taskId ++ ".mkv") ∧
    (∀ p ∈ download_video_task sc taskId url r1 initView fs0,
      p.1.status = "ready" → p.1.filename = some (taskId ++ ".mkv")) := by
  refine ⟨rfl, rfl, rfl, by simp [outputPath, String.append_assoc], ?_⟩
  intro p hp hr
  exact (((trace_facts sc taskId url r1 fs0).1 p hp).2.2 hr).2.2.1

/-- Witness for `C10_rename_hint_inert`: with hints `some "Custom"` and
`none` the concrete successful run's recorded filename is `t1.mkv`
either way, and the hint is stored verbatim. -/
theorem C10_rename_hint_inert_witness :
    (start_download "u" (some "Custom")).rename = some "Custom" ∧
    (some "t1.mkv" : Option String) = some ("t1" ++ ".mkv") :=
  ⟨(C10_rename_hint_inert happyScenario "t1" "u" (some "Custom") none
      ⟨[], false, 0⟩).2.1,
   (C10_rename_hint_inert happyScenario "t1" "u" (some "Custom") none
      ⟨[], false, 0⟩).2.2.2.2
    (⟨⟨"ready", "ready", "✅ Video ready for download!",
       some ⟨"My Video", "http://t", "01:05"⟩, some "t1.mkv"⟩,
      ⟨[⟨"webm", 120⟩], true, 999⟩⟩)
    (by decide) (by decide)⟩
